import Mathlib

/-!
Verification of the resource abstraction and readiness-aggregation engine of
k8s-AppController, as implemented in `pkg/resources/service.go`.

The Go code is shallowly embedded: the cluster transport (the
`corev1.ServiceInterface` handle and the `client.Interface` API client) is
modelled by records of functions returning `Except K8sError`, the label
library's `labels.Parse` is an oracle parameter, and every embedded operation
additionally returns the list of transport calls it issued, so that claims
about which cluster calls happen (short-circuiting, the version shim, the
empty-selector fast path) are statable.  Go's `error` values are
`Option K8sError` (`none` = nil).  Go map iteration over the service selector
is modelled by iterating an association list in list order.
-/

set_option autoImplicit false

/-- An error returned by a cluster transport call: either the distinguished
"not found" condition or any other transport failure (auth, network, ...). -/
inductive K8sError where
  | notFound (msg : String)
  | transport (msg : String)
deriving DecidableEq, Repr

/-- The observed/desired state of a `v1.Service` object: its name, its
`Spec.Selector` (a string-to-string map, embedded as an association list whose
list order is the map's iteration order) and a cluster-generated field
(standing for fields such as the assigned cluster IP). -/
structure V1Service where
  name : String
  selector : List (String × String)
  clusterIP : String
deriving DecidableEq, Repr

/-- A child object discovered by a list call (a pod, job, replica set,
stateful set or pet set).  `verdict`/`statusErr` record what the wrapped
resource's own `Status(nil)` check — external per-kind code — returns for it. -/
structure ChildObj where
  name : String
  verdict : String
  statusErr : Option K8sError
deriving DecidableEq, Repr

/-- The child resource kinds discovered by `serviceStatus`. -/
inductive ResKind where
  | pod
  | job
  | replicaSet
  | statefulSet
  | petSet
deriving DecidableEq, Repr

/-- Metadata attached to a resource (`Base.Meta`, a `map[string]interface{}`
in Go; `none` embeds a nil map). -/
abbrev Meta := Option (List (String × String))

/-- A resource wrapper built around a discovered child object, recording which
factory built it: `managed` embeds `NewPod(&pod, client, meta)` and its
analogues (the managed-variant constructors, which receive the discovered
object itself as the desired-state payload), `existing` embeds
`NewExistingPod(name, client)` and its analogues (name-only references with no
desired-state payload).  Lines 70–94 of `service.go` construct only `managed`
wrappers with `meta = none` (the call sites pass `nil`). -/
inductive WrappedChild where
  | managed (kind : ResKind) (obj : ChildObj) (meta : Meta)
  | existing (kind : ResKind) (obj : ChildObj)
deriving DecidableEq, Repr

/-- Whether the wrapper was produced by the existing-variant (name-only)
factory. -/
def WrappedChild.viaExistingFactory : WrappedChild → Bool
  | .managed _ _ _ => false
  | .existing _ _ => true

/-- The kind of the wrapped child. -/
def wcKind : WrappedChild → ResKind
  | .managed k _ _ => k
  | .existing k _ => k

/-- The name of the wrapped child. -/
def wcName : WrappedChild → String
  | .managed _ o _ => o.name
  | .existing _ o => o.name

/-- The result of calling `Status(nil)` on a wrapped child resource.  The
per-kind status checks live outside this file's sources; the discovery oracle
`ChildObj` records their outcome for the discovered object. -/
def childStatus : WrappedChild → String × Option K8sError
  | .managed _ o _ => (o.verdict, o.statusErr)
  | .existing _ o => (o.verdict, o.statusErr)

/-- A transport call issued during a `Status` evaluation. -/
inductive SEvent where
  | getService (name : String)
  | parseSel (term : String)
  | listPods (sel : String)
  | listJobs (sel : String)
  | listReplicaSets (sel : String)
  | listStatefulSets (sel : String)
  | listPetSets (sel : String)
  | childStatus (kind : ResKind) (name : String)
deriving DecidableEq, Repr

/-- The `client.Interface` API client as used by `serviceStatus`: list calls
for the five child kinds (each taking the label-selector string of the list
options) and the capability probe `IsEnabled(v1beta1.SchemeGroupVersion)`. -/
structure ClientIntf where
  listPods : String → Except K8sError (List ChildObj)
  listJobs : String → Except K8sError (List ChildObj)
  listReplicaSets : String → Except K8sError (List ChildObj)
  listStatefulSets : String → Except K8sError (List ChildObj)
  listPetSets : String → Except K8sError (List ChildObj)
  isEnabled : Bool

/-- Modelled from the spec: `resourceListReady` (defined in
`pkg/resources`, outside the provided sources) recursively evaluates a list of
wrapped child resources: the aggregate verdict is `ready` only if every child
resolves to `ready`; the first non-ready or error result short-circuits the
remaining evaluation and becomes the returned verdict/error.  The second
component records which children were actually queried, in order. -/
def resourceListReady : List WrappedChild → (String × Option K8sError) × List SEvent
  | [] => (("ready", none), [])
  | r :: rest =>
    let se := childStatus r
    if se.1 = "ready" ∧ se.2 = none then
      let rr := resourceListReady rest
      (rr.1, SEvent.childStatus (wcKind r) (wcName r) :: rr.2)
    else (se, [SEvent.childStatus (wcKind r) (wcName r)])

/-- Embeds lines 57–95 of `serviceStatus`: for one parsed selector term, list
pods, jobs and replica sets (failing fast on the first list error), wrap each
discovered object via the managed factories `NewPod`/`NewJob`/`NewReplicaSet`
with nil metadata, then take exactly one branch of the version shim: if
`IsEnabled(v1beta1.SchemeGroupVersion)` list and wrap stateful sets
(`NewStatefulSet`), otherwise list and wrap pet sets (`NewPetSet`). -/
def buildResources (c : ClientIntf) (sel : String) :
    Except K8sError (List WrappedChild) × List SEvent :=
  match c.listPods sel with
  | .error e => (.error e, [SEvent.listPods sel])
  | .ok pods =>
    match c.listJobs sel with
    | .error e => (.error e, [SEvent.listPods sel, SEvent.listJobs sel])
    | .ok jobs =>
      match c.listReplicaSets sel with
      | .error e =>
        (.error e, [SEvent.listPods sel, SEvent.listJobs sel, SEvent.listReplicaSets sel])
      | .ok rss =>
        let base :=
          pods.map (fun o => WrappedChild.managed ResKind.pod o none) ++
          jobs.map (fun o => WrappedChild.managed ResKind.job o none) ++
          rss.map (fun o => WrappedChild.managed ResKind.replicaSet o none)
        if c.isEnabled then
          match c.listStatefulSets sel with
          | .error e =>
            (.error e, [SEvent.listPods sel, SEvent.listJobs sel,
              SEvent.listReplicaSets sel, SEvent.listStatefulSets sel])
          | .ok sss =>
            (.ok (base ++ sss.map (fun o => WrappedChild.managed ResKind.statefulSet o none)),
              [SEvent.listPods sel, SEvent.listJobs sel,
                SEvent.listReplicaSets sel, SEvent.listStatefulSets sel])
        else
          match c.listPetSets sel with
          | .error e =>
            (.error e, [SEvent.listPods sel, SEvent.listJobs sel,
              SEvent.listReplicaSets sel, SEvent.listPetSets sel])
          | .ok pss =>
            (.ok (base ++ pss.map (fun o => WrappedChild.managed ResKind.petSet o none)),
              [SEvent.listPods sel, SEvent.listJobs sel,
                SEvent.listReplicaSets sel, SEvent.listPetSets sel])

/-- Outcome of a per-term iteration of the `serviceStatus` selector loop:
an early `return status, err`, normal continuation, or a Go runtime panic
(method call on a nil `client.Interface`). -/
inductive StepRes where
  | ret (verdict : String) (err : Option K8sError)
  | next
  | panicked
deriving DecidableEq, Repr

/-- The possible results of an embedded `Status` call: a normal Go
`(string, error)` return, or a runtime panic from dereferencing a nil API
client (the embedding is total, so the panic is an explicit outcome). -/
inductive Outcome (α : Type) where
  | ok (a : α)
  | nilPanic
deriving DecidableEq, Repr

/-- Embeds one iteration of the selector loop of `serviceStatus`
(lines 47–100) for the selector entry `(k, v)`: build the string selector
`k=v`, parse it with `labels.Parse` (the external label library, an oracle
parameter; failure returns `("error", err)`), then — through the API client,
whose nil-ness panics at the first `apiClient.Pods()` call — discover and wrap
children and fold their readiness; a non-ready or error aggregate is an early
return, a ready aggregate continues the loop. -/
def statusTerm (parse : String → Except K8sError String) (api : Option ClientIntf)
    (k v : String) : StepRes × List SEvent :=
  match parse (k ++ "=" ++ v) with
  | .error e => (.ret "error" (some e), [SEvent.parseSel (k ++ "=" ++ v)])
  | .ok sel =>
    match api with
    | none => (.panicked, [SEvent.parseSel (k ++ "=" ++ v)])
    | some c =>
      let b := buildResources c sel
      match b.1 with
      | .error e => (.ret "error" (some e), SEvent.parseSel (k ++ "=" ++ v) :: b.2)
      | .ok rs =>
        let res := resourceListReady rs
        -- Go: if status != "ready" || err != nil { return status, err }
        if res.1.1 = "ready" ∧ res.1.2 = none then
          (.next, SEvent.parseSel (k ++ "=" ++ v) :: (b.2 ++ res.2))
        else
          (.ret res.1.1 res.1.2, SEvent.parseSel (k ++ "=" ++ v) :: (b.2 ++ res.2))

/-- The selector loop of `serviceStatus`: iterate the selector entries in
iteration order; an early return or a panic ends the loop, and exhausting the
entries yields `("ready", nil)`. -/
def statusLoop (parse : String → Except K8sError String) (api : Option ClientIntf) :
    List (String × String) → Outcome (String × Option K8sError) × List SEvent
  | [] => (.ok ("ready", none), [])
  | (k, v) :: rest =>
    match statusTerm parse api k v with
    | (.ret st e, tr) => (.ok (st, e), tr)
    | (.panicked, tr) => (.nilPanic, tr)
    | (.next, tr) =>
      let r := statusLoop parse api rest
      (r.1, tr ++ r.2)

/-- Embeds `serviceStatus` (lines 39–103): fetch the service by name through
the `corev1.ServiceInterface` handle (`get`); any error — not-found included —
returns `("error", err)`; otherwise run the selector loop over the observed
`Spec.Selector`. -/
def serviceStatus (get : String → Except K8sError V1Service)
    (parse : String → Except K8sError String) (api : Option ClientIntf)
    (name : String) : Outcome (String × Option K8sError) × List SEvent :=
  match get name with
  | .error e => (.ok ("error", some e), [SEvent.getService name])
  | .ok svc =>
    let r := statusLoop parse api svc.selector
    (r.1, SEvent.getService name :: r.2)

/-- The concatenated transport trace of a list of selector terms that all
continued the loop. -/
def termTraces (parse : String → Except K8sError String) (api : Option ClientIntf) :
    List (String × String) → List SEvent
  | [] => []
  | t :: rest => (statusTerm parse api t.1 t.2).2 ++ termTraces parse api rest

/-- A transport call issued during a `Create` call. -/
inductive CreateEvent where
  | getSvc (name : String)
  | createSvc (svc : V1Service)
deriving DecidableEq, Repr

/-- The `corev1.ServiceInterface` handle as used by `Service.Create`:
get-by-name and create.  The handle is live — its observable behaviour at a
call is a function of the cluster state at that moment — so the embedding
passes the behaviour to each call. -/
structure SvcClient where
  get : String → Except K8sError V1Service
  create : V1Service → Except K8sError V1Service

/-- The managed `Service` resource value: the `Base` metadata and the
desired-state object its `Service *v1.Service` field points to (the `Client`
and `APIClient` handles are supplied per call, see `SvcClient`). -/
structure Service where
  base : Meta
  service : V1Service
deriving DecidableEq, Repr

/-- Modelled from the spec: the shared existence-check routine
`checkExistence` (defined in `pkg/resources`, outside the provided sources)
attempts to fetch the object by name; if the object exists it returns nil,
otherwise it returns the error the fetch produced (the not-found error when
the object is absent, the transport error otherwise). -/
def checkExistence (get : String → Except K8sError V1Service) (name : String) :
    Option K8sError :=
  match get name with
  | .ok _ => none
  | .error e => some e

/-- Embeds `Service.Create` (lines 113–120).  The Go method has a VALUE
receiver (`func (s Service) Create() error`), so the reassignment
`s.Service, err = s.Client.Create(s.Service)` updates only the method-local
copy of the struct; the caller's struct is unchanged by the call and only the
returned error escapes.  The result exposes, in order: the returned error, the
final value of the method-local `s.Service` pointer (`none` embeds the nil
pointer Go's typed client returns alongside a create error), and the transport
trace. -/
def Service.Create (s : Service) (cl : SvcClient) :
    (Option K8sError × Option V1Service) × List CreateEvent :=
  match checkExistence cl.get s.service.name with
  | none => ((none, some s.service), [CreateEvent.getSvc s.service.name])
  | some _ =>
    match cl.create s.service with
    | .ok obj =>
      ((none, some obj), [CreateEvent.getSvc s.service.name, CreateEvent.createSvc s.service])
    | .error e =>
      ((some e, none), [CreateEvent.getSvc s.service.name, CreateEvent.createSvc s.service])

/-- A cluster holding service objects by name. -/
structure SvcWorld where
  services : List (String × V1Service)
deriving DecidableEq, Repr

/-- Get-by-name against a cluster: the stored object, or the not-found
error. -/
def worldGet (w : SvcWorld) (name : String) : Except K8sError V1Service :=
  match w.services.lookup name with
  | some svc => .ok svc
  | none => .error (K8sError.notFound name)

/-- The service handle backed by a cluster state: get looks the object up and
create succeeds, storing the submitted object as is and returning it. -/
def worldClient (w : SvcWorld) : SvcClient :=
  { get := worldGet w, create := fun v => .ok v }

/-- The cluster state after the transport has processed a call trace: each
successful create stores the submitted object under its name; gets change
nothing. -/
def applyCreateEvents (w : SvcWorld) : List CreateEvent → SvcWorld
  | [] => w
  | .getSvc _ :: rest => applyCreateEvents w rest
  | .createSvc svc :: rest => applyCreateEvents ⟨(svc.name, svc) :: w.services⟩ rest

/-- Modelled from the spec: the `client.ResourceDefinition` record (defined in
`pkg/client`, outside the provided sources) is a tagged union with at most one
populated kind-specific field per instance; only the service field is read by
`Service.NameMatches`, the other kind fields stand for the remaining kinds. -/
structure ResourceDefinition where
  service : Option V1Service
  pod : Option String
  job : Option String
deriving DecidableEq, Repr

/-- Embeds `Service.NameMatches` (lines 133–135):
`def.Service != nil && def.Service.Name == name` (the receiver is unused in
the source). -/
def Service.NameMatches (d : ResourceDefinition) (name : String) : Bool :=
  match d.service with
  | some svc => svc.name == name
  | none => false

/-- The `ExistingService` resource value (lines 152–157): the `Base` metadata,
the referenced name, the service handle for get calls, and the API client used
for child discovery. -/
structure ExistingService where
  base : Meta
  name : String
  client : SvcClient
  apiClient : Option ClientIntf

/-- Embeds `NewExistingService` (lines 176–178): the struct literal
`ExistingService{Name: name, Client: client}` leaves `Base` and `APIClient` at
their zero values — in particular the `APIClient` interface is nil.  (The
`report.SimpleReporter` decorator wrapped around the value delegates every
`BaseResource` method verbatim and is omitted.) -/
def NewExistingService (name : String) (client : SvcClient) : ExistingService :=
  { base := none, name := name, client := client, apiClient := none }

/-- Embeds `ExistingService.Status` (lines 167–169): delegate to
`serviceStatus` with the stored handle, name and API client; the `meta`
argument is ignored by the source. -/
def ExistingService.Status (s : ExistingService)
    (parse : String → Except K8sError String) (_meta : List (String × String)) :
    Outcome (String × Option K8sError) × List SEvent :=
  serviceStatus s.client.get parse s.apiClient s.name

/-- Embeds `serviceKey` (lines 105–107). -/
def serviceKey (name : String) : String :=
  "service/" ++ name

/-! Concrete oracle instances: a label library that accepts every term, small
clusters and clients, and sample objects.  They instantiate the theorems below
on evaluable inputs. -/

/-- A label library in which every term parses to itself. -/
def parseId : String → Except K8sError String := fun s => .ok s

/-- An API client on a cluster with no children and the current-generation
stateful API enabled. -/
def cEmpty : ClientIntf :=
  { listPods := fun _ => .ok [], listJobs := fun _ => .ok [],
    listReplicaSets := fun _ => .ok [], listStatefulSets := fun _ => .ok [],
    listPetSets := fun _ => .ok [], isEnabled := true }

/-- A discovered pod whose own status check reports it not ready. -/
def p0 : ChildObj := { name := "p1", verdict := "not ready", statusErr := none }

/-- An API client discovering exactly the pod `p0`. -/
def cPod : ClientIntf := { cEmpty with listPods := fun _ => .ok [p0] }

/-- An API client whose job list call fails with a transport error. -/
def cJobsFail : ClientIntf :=
  { cEmpty with listJobs := fun _ => .error (K8sError.transport "net") }

/-- A service selecting `app=web`. -/
def svc1 : V1Service := { name := "svc", selector := [("app", "web")], clusterIP := "" }

/-- A service with an empty selector. -/
def svcEmptySel : V1Service := { name := "svc", selector := [], clusterIP := "" }

/-- The cluster-returned version of `svc1`, carrying a generated field. -/
def svcGen : V1Service := { svc1 with clusterIP := "10.0.0.1" }

/-- A handle whose get always finds `svc1`. -/
def get1 : String → Except K8sError V1Service := fun _ => .ok svc1

/-- A handle whose get always finds `svcEmptySel`. -/
def getEmptySel : String → Except K8sError V1Service := fun _ => .ok svcEmptySel

/-- A handle whose get fails with a transport error. -/
def getFail : String → Except K8sError V1Service :=
  fun _ => .error (K8sError.transport "boom")

/-- The managed resource for `svc1`. -/
def sres : Service := { base := none, service := svc1 }

/-- A service handle whose existence check fails with a transport error and
whose create stores the submitted object. -/
def clFail : SvcClient :=
  { get := fun _ => .error (K8sError.transport "connection refused"),
    create := fun v => .ok v }

/-- A service handle on a cluster lacking the object, whose create succeeds
and returns the object with a generated field assigned. -/
def clGen : SvcClient :=
  { get := fun _ => .error (K8sError.notFound "svc"), create := fun _ => .ok svcGen }

/-- A service handle that finds `svc1` and stores submitted objects as is. -/
def clW : SvcClient := { get := get1, create := fun v => .ok v }

/-- A cluster already holding `svc1` under its name. -/
def wExist : SvcWorld := ⟨[("svc", svc1)]⟩

/-- A resource definition whose service field is populated with `svc1`. -/
def defFix : ResourceDefinition := { service := some svc1, pod := none, job := none }

/-- A resource definition of a different kind: no service field. -/
def defNone : ResourceDefinition := { service := none, pod := some "p", job := none }

section BuildResourcesLemmas

variable (c : ClientIntf) (sel : String)

theorem buildResources_pods_err {e : K8sError} (hp : c.listPods sel = .error e) :
    buildResources c sel = (.error e, [SEvent.listPods sel]) := by
  unfold buildResources
  rw [hp]

theorem buildResources_jobs_err {pods : List ChildObj} {e : K8sError}
    (hp : c.listPods sel = .ok pods) (hj : c.listJobs sel = .error e) :
    buildResources c sel = (.error e, [SEvent.listPods sel, SEvent.listJobs sel]) := by
  unfold buildResources
  rw [hp, hj]

theorem buildResources_rss_err {pods jobs : List ChildObj} {e : K8sError}
    (hp : c.listPods sel = .ok pods) (hj : c.listJobs sel = .ok jobs)
    (hr : c.listReplicaSets sel = .error e) :
    buildResources c sel =
      (.error e, [SEvent.listPods sel, SEvent.listJobs sel, SEvent.listReplicaSets sel]) := by
  unfold buildResources
  rw [hp, hj, hr]

theorem buildResources_ss_err {pods jobs rss : List ChildObj} {e : K8sError}
    (hp : c.listPods sel = .ok pods) (hj : c.listJobs sel = .ok jobs)
    (hr : c.listReplicaSets sel = .ok rss) (hen : c.isEnabled = true)
    (hs : c.listStatefulSets sel = .error e) :
    buildResources c sel =
      (.error e, [SEvent.listPods sel, SEvent.listJobs sel, SEvent.listReplicaSets sel,
        SEvent.listStatefulSets sel]) := by
  unfold buildResources
  rw [hp, hj, hr, hen, hs]
  rfl

theorem buildResources_ps_err {pods jobs rss : List ChildObj} {e : K8sError}
    (hp : c.listPods sel = .ok pods) (hj : c.listJobs sel = .ok jobs)
    (hr : c.listReplicaSets sel = .ok rss) (hen : c.isEnabled = false)
    (hps : c.listPetSets sel = .error e) :
    buildResources c sel =
      (.error e, [SEvent.listPods sel, SEvent.listJobs sel, SEvent.listReplicaSets sel,
        SEvent.listPetSets sel]) := by
  unfold buildResources
  rw [hp, hj, hr, hen, hps]
  rfl

theorem buildResources_ok_enabled {pods jobs rss sss : List ChildObj}
    (hp : c.listPods sel = .ok pods) (hj : c.listJobs sel = .ok jobs)
    (hr : c.listReplicaSets sel = .ok rss) (hen : c.isEnabled = true)
    (hs : c.listStatefulSets sel = .ok sss) :
    buildResources c sel =
      (.ok (pods.map (fun o => WrappedChild.managed ResKind.pod o none) ++
        jobs.map (fun o => WrappedChild.managed ResKind.job o none) ++
        rss.map (fun o => WrappedChild.managed ResKind.replicaSet o none) ++
        sss.map (fun o => WrappedChild.managed ResKind.statefulSet o none)),
       [SEvent.listPods sel, SEvent.listJobs sel, SEvent.listReplicaSets sel,
        SEvent.listStatefulSets sel]) := by
  unfold buildResources
  rw [hp, hj, hr, hen, hs]
  rfl

theorem buildResources_ok_legacy {pods jobs rss pss : List ChildObj}
    (hp : c.listPods sel = .ok pods) (hj : c.listJobs sel = .ok jobs)
    (hr : c.listReplicaSets sel = .ok rss) (hen : c.isEnabled = false)
    (hps : c.listPetSets sel = .ok pss) :
    buildResources c sel =
      (.ok (pods.map (fun o => WrappedChild.managed ResKind.pod o none) ++
        jobs.map (fun o => WrappedChild.managed ResKind.job o none) ++
        rss.map (fun o => WrappedChild.managed ResKind.replicaSet o none) ++
        pss.map (fun o => WrappedChild.managed ResKind.petSet o none)),
       [SEvent.listPods sel, SEvent.listJobs sel, SEvent.listReplicaSets sel,
        SEvent.listPetSets sel]) := by
  unfold buildResources
  rw [hp, hj, hr, hen, hps]
  rfl

end BuildResourcesLemmas

section StatusTermLemmas

variable (parse : String → Except K8sError String) (api : Option ClientIntf)

theorem statusTerm_parse_err {k v : String} {e : K8sError}
    (hp : parse (k ++ "=" ++ v) = .error e) :
    statusTerm parse api k v =
      (.ret "error" (some e), [SEvent.parseSel (k ++ "=" ++ v)]) := by
  unfold statusTerm
  rw [hp]

theorem statusTerm_nil_api {k v sel : String}
    (hp : parse (k ++ "=" ++ v) = .ok sel) :
    statusTerm parse none k v = (.panicked, [SEvent.parseSel (k ++ "=" ++ v)]) := by
  unfold statusTerm
  rw [hp]

theorem statusTerm_build_err {c : ClientIntf} {k v sel : String} {e : K8sError}
    {tr : List SEvent} (hp : parse (k ++ "=" ++ v) = .ok sel)
    (hb : buildResources c sel = (.error e, tr)) :
    statusTerm parse (some c) k v =
      (.ret "error" (some e), SEvent.parseSel (k ++ "=" ++ v) :: tr) := by
  unfold statusTerm
  rw [hp]
  simp only [hb]

theorem statusTerm_build_ok {c : ClientIntf} {k v sel : String}
    {rs : List WrappedChild} {tr : List SEvent}
    (hp : parse (k ++ "=" ++ v) = .ok sel)
    (hb : buildResources c sel = (.ok rs, tr)) :
    statusTerm parse (some c) k v =
      (if (resourceListReady rs).1.1 = "ready" ∧ (resourceListReady rs).1.2 = none then
        (.next, SEvent.parseSel (k ++ "=" ++ v) :: (tr ++ (resourceListReady rs).2))
       else
        (.ret (resourceListReady rs).1.1 (resourceListReady rs).1.2,
          SEvent.parseSel (k ++ "=" ++ v) :: (tr ++ (resourceListReady rs).2))) := by
  unfold statusTerm
  rw [hp]
  simp only [hb]

/-- A term of the selector loop never returns early with the all-clear pair
`("ready", nil)`: early returns come from a failed parse, a failed list call
or a non-ready/failed child aggregate. -/
theorem statusTerm_ret_not_ready {k v : String} {st : String} {e : Option K8sError}
    {tr : List SEvent} (h : statusTerm parse api k v = (.ret st e, tr)) :
    ¬(st = "ready" ∧ e = none) := by
  rcases hp : parse (k ++ "=" ++ v) with e' | sel
  · rw [statusTerm_parse_err parse api hp] at h
    obtain ⟨h1, -⟩ := Prod.mk.injEq .. ▸ h
    cases h1
    rintro ⟨-, h3⟩
    exact Option.noConfusion h3
  · match api with
    | none =>
      rw [statusTerm_nil_api parse hp] at h
      exact absurd (congrArg Prod.fst h) (by simp)
    | some c =>
      rcases hb : buildResources c sel with ⟨res, btr⟩
      rcases res with e' | rs
      · rw [statusTerm_build_err parse hp hb] at h
        obtain ⟨h1, -⟩ := Prod.mk.injEq .. ▸ h
        cases h1
        rintro ⟨-, h3⟩
        exact Option.noConfusion h3
      · rw [statusTerm_build_ok parse hp hb] at h
        by_cases hc : (resourceListReady rs).1.1 = "ready" ∧ (resourceListReady rs).1.2 = none
        · rw [if_pos hc] at h
          exact absurd (congrArg Prod.fst h) (by simp)
        · rw [if_neg hc] at h
          obtain ⟨h1, -⟩ := Prod.mk.injEq .. ▸ h
          obtain ⟨rfl, rfl⟩ := StepRes.ret.injEq .. ▸ h1
          exact hc

end StatusTermLemmas

section LoopLemmas

variable (parse : String → Except K8sError String) (api : Option ClientIntf)

theorem statusLoop_cons_ret {k v st : String} {e : Option K8sError} {tr : List SEvent}
    {rest : List (String × String)}
    (ht : statusTerm parse api k v = (.ret st e, tr)) :
    statusLoop parse api ((k, v) :: rest) = (.ok (st, e), tr) := by
  conv_lhs => unfold statusLoop
  rw [ht]

theorem statusLoop_cons_panic {k v : String} {tr : List SEvent}
    {rest : List (String × String)}
    (ht : statusTerm parse api k v = (.panicked, tr)) :
    statusLoop parse api ((k, v) :: rest) = (.nilPanic, tr) := by
  conv_lhs => unfold statusLoop
  rw [ht]

theorem statusLoop_cons_next {k v : String} {tr : List SEvent}
    {rest : List (String × String)}
    (ht : statusTerm parse api k v = (.next, tr)) :
    statusLoop parse api ((k, v) :: rest) =
      ((statusLoop parse api rest).1, tr ++ (statusLoop parse api rest).2) := by
  conv_lhs => unfold statusLoop
  rw [ht]

/-- Selector terms whose evaluation continued the loop contribute only their
traces: the loop's result is that of the remaining terms. -/
theorem statusLoop_append_next (pre : List (String × String))
    (rest : List (String × String))
    (hpre : ∀ t ∈ pre, (statusTerm parse api t.1 t.2).1 = .next) :
    statusLoop parse api (pre ++ rest) =
      ((statusLoop parse api rest).1,
        termTraces parse api pre ++ (statusLoop parse api rest).2) := by
  induction pre with
  | nil => simp [termTraces]
  | cons t pre ih =>
    obtain ⟨k, v⟩ := t
    have hnext := hpre (k, v) (List.mem_cons_self _ _)
    rcases ht : statusTerm parse api k v with ⟨step, tr⟩
    rw [ht] at hnext
    cases hnext
    rw [List.cons_append, statusLoop_cons_next parse api ht,
      ih (fun t h => hpre t (List.mem_cons_of_mem _ h))]
    simp [termTraces, ht]

/-- If every selector term continues, the loop is `("ready", nil)`. -/
theorem statusLoop_all_next {terms : List (String × String)}
    (h : ∀ t ∈ terms, (statusTerm parse api t.1 t.2).1 = .next) :
    statusLoop parse api terms = (.ok ("ready", none), termTraces parse api terms) := by
  have := statusLoop_append_next parse api terms [] h
  simpa [statusLoop] using this

/-- The loop is all-clear exactly when every selector term continues it. -/
theorem statusLoop_ready_iff {terms : List (String × String)} :
    (statusLoop parse api terms).1 = .ok ("ready", none) ↔
      ∀ t ∈ terms, (statusTerm parse api t.1 t.2).1 = .next := by
  induction terms with
  | nil => simp [statusLoop]
  | cons t rest ih =>
    obtain ⟨k, v⟩ := t
    rcases ht : statusTerm parse api k v with ⟨step, tr⟩
    cases step with
    | ret st e =>
      rw [statusLoop_cons_ret parse api ht]
      have hne := statusTerm_ret_not_ready parse api ht
      constructor
      · intro hgoal
        exact absurd (by simpa using hgoal) hne
      · intro hall
        have := hall (k, v) (List.mem_cons_self _ _)
        rw [ht] at this
        exact absurd this (by simp)
    | next =>
      rw [statusLoop_cons_next parse api ht]
      simp only [List.mem_cons]
      constructor
      · intro hgoal t hmem
        rcases hmem with rfl | hmem
        · rw [ht]
        · exact (ih.mp hgoal) t hmem
      · intro hall
        exact ih.mpr fun t hmem => hall t (Or.inr hmem)
    | panicked =>
      rw [statusLoop_cons_panic parse api ht]
      constructor
      · intro hgoal
        exact absurd hgoal (by simp)
      · intro hall
        have := hall (k, v) (List.mem_cons_self _ _)
        rw [ht] at this
        exact absurd this (by simp)

end LoopLemmas

section ReadyListLemmas

theorem resourceListReady_cons_ready {r : WrappedChild} {rest : List WrappedChild}
    (h : childStatus r = ("ready", none)) :
    resourceListReady (r :: rest) =
      ((resourceListReady rest).1,
        SEvent.childStatus (wcKind r) (wcName r) :: (resourceListReady rest).2) := by
  conv_lhs => unfold resourceListReady
  rw [h]
  simp

theorem resourceListReady_cons_stop {r : WrappedChild} {rest : List WrappedChild}
    {st : String} {e : Option K8sError} (h : childStatus r = (st, e))
    (hne : ¬(st = "ready" ∧ e = none)) :
    resourceListReady (r :: rest) = ((st, e), [SEvent.childStatus (wcKind r) (wcName r)]) := by
  conv_lhs => unfold resourceListReady
  rw [h]
  simp [hne]

/-- Children before the first non-ready one contribute their status query and
nothing else. -/
theorem resourceListReady_append_ready {a : List WrappedChild} (l : List WrappedChild)
    (ha : ∀ x ∈ a, childStatus x = ("ready", none)) :
    resourceListReady (a ++ l) =
      ((resourceListReady l).1,
        a.map (fun x => SEvent.childStatus (wcKind x) (wcName x)) ++
          (resourceListReady l).2) := by
  induction a with
  | nil => simp
  | cons r a ih =>
    have hr := ha r (List.mem_cons_self _ _)
    rw [List.cons_append, resourceListReady_cons_ready hr,
      ih (fun x h => ha x (List.mem_cons_of_mem _ h))]
    simp

/-- The first non-ready or error child short-circuits: its verdict/error is
returned and no child after it is queried. -/
theorem resourceListReady_shortcircuit {a b : List WrappedChild} {r : WrappedChild}
    {st : String} {e : Option K8sError}
    (ha : ∀ x ∈ a, childStatus x = ("ready", none))
    (hr : childStatus r = (st, e)) (hne : ¬(st = "ready" ∧ e = none)) :
    resourceListReady (a ++ r :: b) =
      ((st, e), (a ++ [r]).map (fun x => SEvent.childStatus (wcKind x) (wcName x))) := by
  rw [resourceListReady_append_ready (r :: b) ha, resourceListReady_cons_stop hr hne]
  simp

end ReadyListLemmas

section ServiceStatusLemmas

variable {get : String → Except K8sError V1Service}
variable {parse : String → Except K8sError String} {api : Option ClientIntf}
variable {name : String}

theorem serviceStatus_get_err {e : K8sError} (hget : get name = .error e) :
    serviceStatus get parse api name =
      (.ok ("error", some e), [SEvent.getService name]) := by
  conv_lhs => unfold serviceStatus
  rw [hget]

theorem serviceStatus_get_ok {svc : V1Service} (hget : get name = .ok svc) :
    serviceStatus get parse api name =
      ((statusLoop parse api svc.selector).1,
        SEvent.getService name :: (statusLoop parse api svc.selector).2) := by
  conv_lhs => unfold serviceStatus
  rw [hget]

/-- The first selector term that returns early determines the verdict/error of
the whole `Status` call, and nothing after it is evaluated. -/
theorem serviceStatus_term_early {svc : V1Service} {pre post : List (String × String)}
    {k v st : String} {e : Option K8sError} {tr : List SEvent}
    (hget : get name = .ok svc) (hsel : svc.selector = pre ++ (k, v) :: post)
    (hpre : ∀ t ∈ pre, (statusTerm parse api t.1 t.2).1 = .next)
    (hterm : statusTerm parse api k v = (.ret st e, tr)) :
    serviceStatus get parse api name =
      (.ok (st, e), SEvent.getService name :: (termTraces parse api pre ++ tr)) := by
  rw [serviceStatus_get_ok hget, hsel, statusLoop_append_next parse api _ _ hpre,
    statusLoop_cons_ret parse api hterm]

end ServiceStatusLemmas

section CreateLemmas

theorem checkExistence_found {g : String → Except K8sError V1Service} {name : String}
    {o : V1Service} (h : g name = .ok o) : checkExistence g name = none := by
  unfold checkExistence
  rw [h]

theorem checkExistence_absent {g : String → Except K8sError V1Service} {name : String}
    {e : K8sError} (h : g name = .error e) : checkExistence g name = some e := by
  unfold checkExistence
  rw [h]

theorem Create_check_none {s : Service} {cl : SvcClient}
    (h : checkExistence cl.get s.service.name = none) :
    s.Create cl = ((none, some s.service), [CreateEvent.getSvc s.service.name]) := by
  conv_lhs => unfold Service.Create
  rw [h]

theorem Create_check_some_ok {s : Service} {cl : SvcClient} {e : K8sError} {o : V1Service}
    (h : checkExistence cl.get s.service.name = some e) (hc : cl.create s.service = .ok o) :
    s.Create cl = ((none, some o),
      [CreateEvent.getSvc s.service.name, CreateEvent.createSvc s.service]) := by
  conv_lhs => unfold Service.Create
  rw [h]
  simp only [hc]

theorem Create_check_some_err {s : Service} {cl : SvcClient} {e e' : K8sError}
    (h : checkExistence cl.get s.service.name = some e)
    (hc : cl.create s.service = .error e') :
    s.Create cl = ((some e', none),
      [CreateEvent.getSvc s.service.name, CreateEvent.createSvc s.service]) := by
  conv_lhs => unfold Service.Create
  rw [h]
  simp only [hc]

theorem worldGet_insert_self (w : SvcWorld) (svc : V1Service) :
    worldGet ⟨(svc.name, svc) :: w.services⟩ svc.name = .ok svc := by
  unfold worldGet
  simp [List.lookup]

/-- After one `Create` against a live cluster the object exists, and that
`Create` returned nil. -/
theorem create_then_exists (w : SvcWorld) (s : Service) :
    (∃ o, worldGet (applyCreateEvents w (s.Create (worldClient w)).2) s.service.name = .ok o) ∧
      (s.Create (worldClient w)).1.1 = none := by
  rcases hg : worldGet w s.service.name with e | o
  · have hce : checkExistence (worldClient w).get s.service.name = some e :=
      checkExistence_absent hg
    have hcr : (worldClient w).create s.service = .ok s.service := rfl
    rw [Create_check_some_ok hce hcr]
    exact ⟨⟨s.service, worldGet_insert_self w s.service⟩, rfl⟩
  · have hce : checkExistence (worldClient w).get s.service.name = none :=
      checkExistence_found hg
    rw [Create_check_none hce]
    exact ⟨⟨o, hg⟩, rfl⟩

end CreateLemmas

/-- Claim C1: for a service with a non-empty observed selector, each selector
entry is evaluated as its own label query; the aggregate is all-clear exactly
when every term's evaluation continues the loop, the first term returning a
non-ready or error result — in selector-term order — short-circuits every
later term and becomes the service verdict/error, and within a term the first
non-ready or error child verdict — in discovery order — short-circuits the
remaining children and is returned for that term. -/
theorem serviceStatus_term_aggregation
    (get : String → Except K8sError V1Service)
    (parse : String → Except K8sError String) (api : Option ClientIntf)
    (name : String) (svc : V1Service)
    (hget : get name = .ok svc) (_hne : svc.selector ≠ []) :
    ((serviceStatus get parse api name).1 = .ok ("ready", none) ↔
      ∀ t ∈ svc.selector, (statusTerm parse api t.1 t.2).1 = .next) ∧
    (∀ pre k v post st e tr, svc.selector = pre ++ (k, v) :: post →
      (∀ t ∈ pre, (statusTerm parse api t.1 t.2).1 = .next) →
      statusTerm parse api k v = (.ret st e, tr) →
      serviceStatus get parse api name =
        (.ok (st, e), SEvent.getService name :: (termTraces parse api pre ++ tr))) ∧
    (∀ (a b : List WrappedChild) r st e,
      (∀ x ∈ a, childStatus x = ("ready", none)) →
      childStatus r = (st, e) → ¬(st = "ready" ∧ e = none) →
      resourceListReady (a ++ r :: b) =
        ((st, e), (a ++ [r]).map (fun x => SEvent.childStatus (wcKind x) (wcName x)))) := by
  refine ⟨?_, ?_, ?_⟩
  · rw [serviceStatus_get_ok hget]
    exact statusLoop_ready_iff parse api
  · intro pre k v post st e tr hsel hpre hterm
    exact serviceStatus_term_early hget hsel hpre hterm
  · intro a b r st e ha hr hne2
    exact resourceListReady_shortcircuit ha hr hne2

/-- Witness for claim C1: one selector term matching one not-ready pod; its
verdict becomes the service verdict and the transport trace stops at its
status query. -/
theorem serviceStatus_term_aggregation_witness :
    get1 "svc" = .ok svc1 ∧ svc1.selector ≠ [] ∧
    statusTerm parseId (some cPod) "app" "web" =
      (.ret "not ready" none,
        [SEvent.parseSel "app=web", SEvent.listPods "app=web", SEvent.listJobs "app=web",
          SEvent.listReplicaSets "app=web", SEvent.listStatefulSets "app=web",
          SEvent.childStatus ResKind.pod "p1"]) ∧
    serviceStatus get1 parseId (some cPod) "svc" =
      (.ok ("not ready", none),
        [SEvent.getService "svc", SEvent.parseSel "app=web", SEvent.listPods "app=web",
          SEvent.listJobs "app=web", SEvent.listReplicaSets "app=web",
          SEvent.listStatefulSets "app=web", SEvent.childStatus ResKind.pod "p1"]) :=
  ⟨rfl, by decide, rfl,
    (serviceStatus_term_aggregation get1 parseId (some cPod) "svc" svc1 rfl
        (by decide)).2.1
      [] "app" "web" [] "not ready" none
      [SEvent.parseSel "app=web", SEvent.listPods "app=web", SEvent.listJobs "app=web",
        SEvent.listReplicaSets "app=web", SEvent.listStatefulSets "app=web",
        SEvent.childStatus ResKind.pod "p1"]
      rfl (by simp) rfl⟩

/-- Claim C7: every cluster-call failure during `Status` surfaces verbatim as
an `"error"` verdict: a failed get of the observed service (the not-found of a
never-created object included), a selector-term parse failure, or a failure of
any child list call; in each case the failing term issues no transport call
past the failing one. -/
theorem serviceStatus_error_propagation
    (get : String → Except K8sError V1Service)
    (parse : String → Except K8sError String) (c : ClientIntf) (name : String) :
    (∀ e, get name = .error e →
      serviceStatus get parse (some c) name =
        (.ok ("error", some e), [SEvent.getService name])) ∧
    (∀ svc pre k v post, get name = .ok svc →
      svc.selector = pre ++ (k, v) :: post →
      (∀ t ∈ pre, (statusTerm parse (some c) t.1 t.2).1 = .next) →
      ((∀ e, parse (k ++ "=" ++ v) = .error e →
        serviceStatus get parse (some c) name =
          (.ok ("error", some e), SEvent.getService name ::
            (termTraces parse (some c) pre ++ [SEvent.parseSel (k ++ "=" ++ v)]))) ∧
       (∀ sel e, parse (k ++ "=" ++ v) = .ok sel → c.listPods sel = .error e →
        serviceStatus get parse (some c) name =
          (.ok ("error", some e), SEvent.getService name ::
            (termTraces parse (some c) pre ++
              [SEvent.parseSel (k ++ "=" ++ v), SEvent.listPods sel]))) ∧
       (∀ sel pods e, parse (k ++ "=" ++ v) = .ok sel → c.listPods sel = .ok pods →
        c.listJobs sel = .error e →
        serviceStatus get parse (some c) name =
          (.ok ("error", some e), SEvent.getService name ::
            (termTraces parse (some c) pre ++
              [SEvent.parseSel (k ++ "=" ++ v), SEvent.listPods sel,
                SEvent.listJobs sel]))) ∧
       (∀ sel pods jobs e, parse (k ++ "=" ++ v) = .ok sel →
        c.listPods sel = .ok pods → c.listJobs sel = .ok jobs →
        c.listReplicaSets sel = .error e →
        serviceStatus get parse (some c) name =
          (.ok ("error", some e), SEvent.getService name ::
            (termTraces parse (some c) pre ++
              [SEvent.parseSel (k ++ "=" ++ v), SEvent.listPods sel,
                SEvent.listJobs sel, SEvent.listReplicaSets sel]))) ∧
       (∀ sel pods jobs rss e, parse (k ++ "=" ++ v) = .ok sel →
        c.listPods sel = .ok pods → c.listJobs sel = .ok jobs →
        c.listReplicaSets sel = .ok rss → c.isEnabled = true →
        c.listStatefulSets sel = .error e →
        serviceStatus get parse (some c) name =
          (.ok ("error", some e), SEvent.getService name ::
            (termTraces parse (some c) pre ++
              [SEvent.parseSel (k ++ "=" ++ v), SEvent.listPods sel,
                SEvent.listJobs sel, SEvent.listReplicaSets sel,
                SEvent.listStatefulSets sel]))) ∧
       (∀ sel pods jobs rss e, parse (k ++ "=" ++ v) = .ok sel →
        c.listPods sel = .ok pods → c.listJobs sel = .ok jobs →
        c.listReplicaSets sel = .ok rss → c.isEnabled = false →
        c.listPetSets sel = .error e →
        serviceStatus get parse (some c) name =
          (.ok ("error", some e), SEvent.getService name ::
            (termTraces parse (some c) pre ++
              [SEvent.parseSel (k ++ "=" ++ v), SEvent.listPods sel,
                SEvent.listJobs sel, SEvent.listReplicaSets sel,
                SEvent.listPetSets sel]))))) := by
  refine ⟨fun e hget => serviceStatus_get_err hget, ?_⟩
  intro svc pre k v post hget hsel hpre
  refine ⟨?_, ?_, ?_, ?_, ?_, ?_⟩
  · intro e hp
    exact serviceStatus_term_early hget hsel hpre (statusTerm_parse_err parse (some c) hp)
  · intro sel e hp hpods
    exact serviceStatus_term_early hget hsel hpre
      (statusTerm_build_err parse hp (buildResources_pods_err c sel hpods))
  · intro sel pods e hp hpods hjobs
    exact serviceStatus_term_early hget hsel hpre
      (statusTerm_build_err parse hp (buildResources_jobs_err c sel hpods hjobs))
  · intro sel pods jobs e hp hpods hjobs hrss
    exact serviceStatus_term_early hget hsel hpre
      (statusTerm_build_err parse hp (buildResources_rss_err c sel hpods hjobs hrss))
  · intro sel pods jobs rss e hp hpods hjobs hrss hen hss
    exact serviceStatus_term_early hget hsel hpre
      (statusTerm_build_err parse hp
        (buildResources_ss_err c sel hpods hjobs hrss hen hss))
  · intro sel pods jobs rss e hp hpods hjobs hrss hen hps
    exact serviceStatus_term_early hget hsel hpre
      (statusTerm_build_err parse hp
        (buildResources_ps_err c sel hpods hjobs hrss hen hps))

/-- Witness for claim C7: a failed get surfaces its transport error, and a
failed job list call surfaces its error with no replica-set, stateful or
legacy list call after it. -/
theorem serviceStatus_error_propagation_witness :
    getFail "svc" = .error (K8sError.transport "boom") ∧
    serviceStatus getFail parseId (some cEmpty) "svc" =
      (.ok ("error", some (K8sError.transport "boom")), [SEvent.getService "svc"]) ∧
    cJobsFail.listJobs "app=web" = .error (K8sError.transport "net") ∧
    serviceStatus get1 parseId (some cJobsFail) "svc" =
      (.ok ("error", some (K8sError.transport "net")),
        [SEvent.getService "svc", SEvent.parseSel "app=web", SEvent.listPods "app=web",
          SEvent.listJobs "app=web"]) :=
  ⟨rfl,
    (serviceStatus_error_propagation getFail parseId cEmpty "svc").1
      (K8sError.transport "boom") rfl,
    rfl,
    ((serviceStatus_error_propagation get1 parseId cJobsFail "svc").2 svc1 []
        "app" "web" [] rfl rfl (by simp)).2.2.1
      "app=web" [] (K8sError.transport "net") rfl rfl rfl⟩

/-- Claim C2: calling `Create` on a managed service whose name already exists
in the cluster returns a nil error, issues no provisioning call and leaves the
cluster unchanged; and calling `Create` twice in succession against a live
cluster keeps the cluster object of the second call identical to the state
after the first, with the second call returning nil. -/
theorem service_create_idempotent (w : SvcWorld) (s : Service) (obj : V1Service)
    (hexists : worldGet w s.service.name = .ok obj) :
    ((s.Create (worldClient w)).1.1 = none ∧
      (∀ v, CreateEvent.createSvc v ∉ (s.Create (worldClient w)).2) ∧
      applyCreateEvents w (s.Create (worldClient w)).2 = w) ∧
    (∀ (w0 : SvcWorld) (s0 : Service),
      (s0.Create (worldClient
        (applyCreateEvents w0 (s0.Create (worldClient w0)).2))).1.1 = none ∧
      applyCreateEvents (applyCreateEvents w0 (s0.Create (worldClient w0)).2)
          (s0.Create (worldClient
            (applyCreateEvents w0 (s0.Create (worldClient w0)).2))).2 =
        applyCreateEvents w0 (s0.Create (worldClient w0)).2) := by
  constructor
  · have hce : checkExistence (worldClient w).get s.service.name = none :=
      checkExistence_found hexists
    rw [Create_check_none hce]
    exact ⟨rfl, by simp, rfl⟩
  · intro w0 s0
    obtain ⟨⟨o, ho⟩, -⟩ := create_then_exists w0 s0
    have hce : checkExistence
        (worldClient (applyCreateEvents w0 (s0.Create (worldClient w0)).2)).get
        s0.service.name = none := checkExistence_found ho
    rw [Create_check_none hce]
    exact ⟨rfl, rfl⟩

/-- Witness for claim C2 at a concrete cluster already holding the object. -/
theorem service_create_idempotent_witness :
    worldGet wExist sres.service.name = .ok svc1 ∧
    (sres.Create (worldClient wExist)).1.1 = none ∧
    CreateEvent.createSvc svc1 ∉ (sres.Create (worldClient wExist)).2 ∧
    applyCreateEvents wExist (sres.Create (worldClient wExist)).2 = wExist :=
  ⟨rfl,
    (service_create_idempotent wExist sres svc1 rfl).1.1,
    (service_create_idempotent wExist sres svc1 rfl).1.2.1 svc1,
    (service_create_idempotent wExist sres svc1 rfl).1.2.2⟩

/-- Counterexample to claim C3: when the existence check fails with a
transport error that is not a not-found, `Create` does not fail with that
error and does not skip provisioning — the provisioning call is issued (and
here succeeds, so `Create` returns nil). -/
theorem service_create_transport_error_provisions_cex :
    clFail.get sres.service.name = .error (K8sError.transport "connection refused") ∧
    CreateEvent.createSvc svc1 ∈ (sres.Create clFail).2 ∧
    (sres.Create clFail).1.1 ≠ some (K8sError.transport "connection refused") := by
  refine ⟨rfl, ?_, ?_⟩ <;> decide

/-- Claim C3 amended: any error from the existence check — the not-found error
or a transport error alike — leads `Create` to issue the provisioning call;
the existence-check error itself is discarded and `Create` returns the
provisioning call's result. -/
theorem service_create_any_check_error_provisions (s : Service) (cl : SvcClient)
    (e : K8sError) (hget : cl.get s.service.name = .error e) :
    (s.Create cl).2 =
      [CreateEvent.getSvc s.service.name, CreateEvent.createSvc s.service] ∧
    (s.Create cl).1.1 = (match cl.create s.service with
      | .ok _ => none
      | .error e' => some e') := by
  have hce : checkExistence cl.get s.service.name = some e := checkExistence_absent hget
  rcases hc : cl.create s.service with e' | o
  · rw [Create_check_some_err hce hc]
    exact ⟨rfl, rfl⟩
  · rw [Create_check_some_ok hce hc]
    exact ⟨rfl, rfl⟩

/-- Witness for the amended claim C3 at a concrete transport failure. -/
theorem service_create_any_check_error_provisions_witness :
    clFail.get sres.service.name = .error (K8sError.transport "connection refused") ∧
    (sres.Create clFail).2 = [CreateEvent.getSvc "svc", CreateEvent.createSvc svc1] ∧
    (sres.Create clFail).1.1 = none :=
  ⟨rfl,
    (service_create_any_check_error_provisions sres clFail
      (K8sError.transport "connection refused") rfl).1,
    (service_create_any_check_error_provisions sres clFail
      (K8sError.transport "connection refused") rfl).2⟩

/-- Claim C4 (code bug, evaluated at the failing input): the service is absent
and provisioning succeeds with a cluster-returned object carrying a generated
field.  The body's reassignment stores that object only in the method-local
receiver copy (second component); the method returns nothing but the nil
error, and since the receiver of `Create` is a value (line 113) the
caller-visible resource still holds the original desired-state object, which
differs from the cluster-returned one. -/
theorem service_create_local_update_lost :
    clGen.get sres.service.name = .error (K8sError.notFound "svc") ∧
    sres.Create clGen = ((none, some svcGen),
      [CreateEvent.getSvc "svc", CreateEvent.createSvc svc1]) ∧
    svcGen ≠ sres.service := by
  refine ⟨rfl, rfl, ?_⟩
  decide

/-- Claim C6: a service whose observed object has an empty selector is
vacuously ready: `Status` returns `("ready", nil)` and the only transport
call issued is the get of the service itself — no child list is queried. -/
theorem serviceStatus_empty_selector_ready
    (get : String → Except K8sError V1Service)
    (parse : String → Except K8sError String) (api : Option ClientIntf)
    (name : String) (svc : V1Service)
    (hget : get name = .ok svc) (hsel : svc.selector = []) :
    serviceStatus get parse api name =
      (.ok ("ready", none), [SEvent.getService name]) := by
  rw [serviceStatus_get_ok hget, hsel]
  rfl

/-- Witness for claim C6 at a concrete empty-selector service. -/
theorem serviceStatus_empty_selector_ready_witness :
    getEmptySel "svc" = .ok svcEmptySel ∧ svcEmptySel.selector = [] ∧
    serviceStatus getEmptySel parseId (some cEmpty) "svc" =
      (.ok ("ready", none), [SEvent.getService "svc"]) :=
  ⟨rfl, rfl,
    serviceStatus_empty_selector_ready getEmptySel parseId (some cEmpty) "svc"
      svcEmptySel rfl rfl⟩

/-- Claim C9: `NameMatches` holds exactly when the definition's service field
is populated and carries the queried name; it is false whenever the service
field is absent, and false for a populated field with a different name. -/
theorem nameMatches_iff_service_name (d : ResourceDefinition) (name : String) :
    (Service.NameMatches d name = true ↔
      ∃ svc, d.service = some svc ∧ svc.name = name) ∧
    (d.service = none → Service.NameMatches d name = false) ∧
    (∀ svc, d.service = some svc → svc.name ≠ name →
      Service.NameMatches d name = false) := by
  unfold Service.NameMatches
  rcases hd : d.service with _ | svc <;> simp [hd]

/-- Witness for claim C9: a populated matching definition and a definition of
a different kind. -/
theorem nameMatches_iff_service_name_witness :
    Service.NameMatches defFix "svc" = true ∧
    Service.NameMatches defNone "svc" = false :=
  ⟨(nameMatches_iff_service_name defFix "svc").1.mpr ⟨svc1, rfl, rfl⟩,
    (nameMatches_iff_service_name defNone "svc").2.1 rfl⟩

/-- Claim C5: the version shim is exclusive per selector term: with the
capability flag enabled no pet-set list call is issued and no pet-set child is
wrapped (and, whenever the three base list calls succeed, the stateful-set
kind IS queried); with the flag disabled, symmetrically; and in no evaluation
are both kinds queried. -/
theorem shim_mutually_exclusive (c : ClientIntf) (sel : String) :
    (c.isEnabled = true →
      (∀ q, SEvent.listPetSets q ∉ (buildResources c sel).2) ∧
      (∀ rs, (buildResources c sel).1 = .ok rs → ∀ r ∈ rs, wcKind r ≠ ResKind.petSet) ∧
      (∀ pods jobs rss, c.listPods sel = .ok pods → c.listJobs sel = .ok jobs →
        c.listReplicaSets sel = .ok rss →
        SEvent.listStatefulSets sel ∈ (buildResources c sel).2)) ∧
    (c.isEnabled = false →
      (∀ q, SEvent.listStatefulSets q ∉ (buildResources c sel).2) ∧
      (∀ rs, (buildResources c sel).1 = .ok rs →
        ∀ r ∈ rs, wcKind r ≠ ResKind.statefulSet) ∧
      (∀ pods jobs rss, c.listPods sel = .ok pods → c.listJobs sel = .ok jobs →
        c.listReplicaSets sel = .ok rss →
        SEvent.listPetSets sel ∈ (buildResources c sel).2)) ∧
    (∀ q q', ¬(SEvent.listStatefulSets q ∈ (buildResources c sel).2 ∧
      SEvent.listPetSets q' ∈ (buildResources c sel).2)) := by
  rcases hp : c.listPods sel with e | pods
  · rw [buildResources_pods_err c sel hp]
    simp [hp]
  rcases hj : c.listJobs sel with e | jobs
  · rw [buildResources_jobs_err c sel hp hj]
    simp [hj]
  rcases hr : c.listReplicaSets sel with e | rss
  · rw [buildResources_rss_err c sel hp hj hr]
    simp [hr]
  rcases hen : c.isEnabled
  · rcases hps : c.listPetSets sel with e | pss
    · rw [buildResources_ps_err c sel hp hj hr hen hps]
      simp [hen]
    · rw [buildResources_ok_legacy c sel hp hj hr hen hps]
      refine ⟨by simp [hen], fun _ => ⟨by simp, ?_, by simp⟩, by simp⟩
      rintro rs hrs r hmem
      obtain rfl : (pods.map (fun o => WrappedChild.managed ResKind.pod o none) ++
          jobs.map (fun o => WrappedChild.managed ResKind.job o none) ++
          rss.map (fun o => WrappedChild.managed ResKind.replicaSet o none) ++
          pss.map (fun o => WrappedChild.managed ResKind.petSet o none)) = rs := by
        simpa using hrs
      simp only [List.mem_append, List.mem_map] at hmem
      rcases hmem with ((⟨o, -, rfl⟩ | ⟨o, -, rfl⟩) | ⟨o, -, rfl⟩) | ⟨o, -, rfl⟩ <;>
        simp [wcKind]
  · rcases hs : c.listStatefulSets sel with e | sss
    · rw [buildResources_ss_err c sel hp hj hr hen hs]
      simp [hen]
    · rw [buildResources_ok_enabled c sel hp hj hr hen hs]
      refine ⟨fun _ => ⟨by simp, ?_, by simp⟩, by simp [hen], by simp⟩
      rintro rs hrs r hmem
      obtain rfl : (pods.map (fun o => WrappedChild.managed ResKind.pod o none) ++
          jobs.map (fun o => WrappedChild.managed ResKind.job o none) ++
          rss.map (fun o => WrappedChild.managed ResKind.replicaSet o none) ++
          sss.map (fun o => WrappedChild.managed ResKind.statefulSet o none)) = rs := by
        simpa using hrs
      simp only [List.mem_append, List.mem_map] at hmem
      rcases hmem with ((⟨o, -, rfl⟩ | ⟨o, -, rfl⟩) | ⟨o, -, rfl⟩) | ⟨o, -, rfl⟩ <;>
        simp [wcKind]

/-- Witness for claim C5 at a concrete enabled client. -/
theorem shim_mutually_exclusive_witness :
    cEmpty.isEnabled = true ∧
    SEvent.listPetSets "app=web" ∉ (buildResources cEmpty "app=web").2 ∧
    SEvent.listStatefulSets "app=web" ∈ (buildResources cEmpty "app=web").2 :=
  ⟨rfl,
    ((shim_mutually_exclusive cEmpty "app=web").1 rfl).1 "app=web",
    ((shim_mutually_exclusive cEmpty "app=web").1 rfl).2.2 [] [] [] rfl rfl rfl⟩

/-- Counterexample to claim C8: a discovered pod is wrapped by the call
`NewPod(&pod, apiClient.Pods(), nil)` — the MANAGED-variant factory, carrying
the discovered object as a desired-state payload — not by the existing-variant
(name-only) factory the claim describes. -/
theorem wrap_uses_managed_factory_cex :
    (buildResources cPod "app=web").1 =
      .ok [WrappedChild.managed ResKind.pod p0 none] ∧
    (WrappedChild.managed ResKind.pod p0 none).viaExistingFactory = false :=
  ⟨rfl, rfl⟩

/-- Claim C8 amended: every discovered child is wrapped via the corresponding
kind's MANAGED-variant factory, receiving the discovered object itself as the
desired-state payload and nil metadata; no wrapper comes from the
existing-variant factory. -/
theorem wrap_discovered_managed (c : ClientIntf) (sel : String)
    (pods jobs rss sss pss : List ChildObj)
    (hp : c.listPods sel = .ok pods) (hj : c.listJobs sel = .ok jobs)
    (hr : c.listReplicaSets sel = .ok rss) (hs : c.listStatefulSets sel = .ok sss)
    (hps : c.listPetSets sel = .ok pss) :
    (buildResources c sel).1 =
      .ok (pods.map (fun o => WrappedChild.managed ResKind.pod o none) ++
        jobs.map (fun o => WrappedChild.managed ResKind.job o none) ++
        rss.map (fun o => WrappedChild.managed ResKind.replicaSet o none) ++
        (if c.isEnabled then
          sss.map (fun o => WrappedChild.managed ResKind.statefulSet o none)
         else pss.map (fun o => WrappedChild.managed ResKind.petSet o none))) ∧
    (∀ rs, (buildResources c sel).1 = .ok rs →
      ∀ r ∈ rs, r.viaExistingFactory = false) := by
  rcases hen : c.isEnabled
  · rw [buildResources_ok_legacy c sel hp hj hr hen hps]
    refine ⟨by simp [hen], ?_⟩
    rintro rs hrs r hmem
    obtain rfl : (pods.map (fun o => WrappedChild.managed ResKind.pod o none) ++
        jobs.map (fun o => WrappedChild.managed ResKind.job o none) ++
        rss.map (fun o => WrappedChild.managed ResKind.replicaSet o none) ++
        pss.map (fun o => WrappedChild.managed ResKind.petSet o none)) = rs := by
      simpa using hrs
    simp only [List.mem_append, List.mem_map] at hmem
    rcases hmem with ((⟨o, -, rfl⟩ | ⟨o, -, rfl⟩) | ⟨o, -, rfl⟩) | ⟨o, -, rfl⟩ <;>
      simp [WrappedChild.viaExistingFactory]
  · rw [buildResources_ok_enabled c sel hp hj hr hen hs]
    refine ⟨by simp [hen], ?_⟩
    rintro rs hrs r hmem
    obtain rfl : (pods.map (fun o => WrappedChild.managed ResKind.pod o none) ++
        jobs.map (fun o => WrappedChild.managed ResKind.job o none) ++
        rss.map (fun o => WrappedChild.managed ResKind.replicaSet o none) ++
        sss.map (fun o => WrappedChild.managed ResKind.statefulSet o none)) = rs := by
      simpa using hrs
    simp only [List.mem_append, List.mem_map] at hmem
    rcases hmem with ((⟨o, -, rfl⟩ | ⟨o, -, rfl⟩) | ⟨o, -, rfl⟩) | ⟨o, -, rfl⟩ <;>
      simp [WrappedChild.viaExistingFactory]

/-- Witness for the amended claim C8 at a concrete discovered pod. -/
theorem wrap_discovered_managed_witness :
    cPod.listPods "app=web" = .ok [p0] ∧
    (buildResources cPod "app=web").1 = .ok [WrappedChild.managed ResKind.pod p0 none] :=
  ⟨rfl, (wrap_discovered_managed cPod "app=web" [p0] [] [] [] [] rfl rfl rfl rfl rfl).1⟩

/-- Claim C10: `NewExistingService` builds the resource with a nil
`APIClient`, and its `Status` delegates child discovery through that client:
for an observed object with a non-empty selector whose first term parses, the
evaluation reaches the child-listing phase with no API client and ends in the
nil-interface panic outcome — the embedding must be total for the call to be
evaluable at all. -/
theorem existing_service_nil_apiclient
    (name : String) (cl : SvcClient) (parse : String → Except K8sError String)
    (meta : List (String × String)) (svc : V1Service) (k v : String)
    (rest : List (String × String)) (sel : String)
    (hget : cl.get name = .ok svc) (hsel : svc.selector = (k, v) :: rest)
    (hparse : parse (k ++ "=" ++ v) = .ok sel) :
    (NewExistingService name cl).apiClient = none ∧
    (NewExistingService name cl).Status parse meta =
      (.nilPanic, [SEvent.getService name, SEvent.parseSel (k ++ "=" ++ v)]) := by
  refine ⟨rfl, ?_⟩
  show serviceStatus cl.get parse none name = _
  rw [serviceStatus_get_ok hget, hsel,
    statusLoop_cons_panic parse none (statusTerm_nil_api parse hparse)]

/-- Witness for claim C10 at a concrete existing service reference. -/
theorem existing_service_nil_apiclient_witness :
    clW.get "svc" = .ok svc1 ∧ svc1.selector = [("app", "web")] ∧
    (NewExistingService "svc" clW).apiClient = none ∧
    (NewExistingService "svc" clW).Status parseId [] =
      (.nilPanic, [SEvent.getService "svc", SEvent.parseSel "app=web"]) :=
  ⟨rfl, rfl,
    (existing_service_nil_apiclient "svc" clW parseId [] svc1 "app" "web" []
      "app=web" rfl rfl rfl).1,
    (existing_service_nil_apiclient "svc" clW parseId [] svc1 "app" "web" []
      "app=web" rfl rfl rfl).2⟩
